import Mathlib

/-!
Verification development for the India Code law-crawler repository.

Python strings are modelled as `List Char` (all inputs of interest are
ASCII).  Each definition mirrors one function of the source files
`law_crawler.py` and `repealed_crawler_final.py`; the stateful row loop
of the crawler is embedded as explicit state passing with the
network/storage outcomes supplied as oracle inputs.
-/

namespace LawCrawl

/-- Whitespace characters recognised by Python `str.split()` (no argument). -/
def pyIsSpace (c : Char) : Bool :=
  c == ' ' || c == '\t' || c == '\n' || c == '\r' || c == '\x0b' || c == '\x0c'

/-- Helper for `str.split()`: splits on runs of whitespace, dropping empty
pieces; `acc` holds the current word reversed. -/
def splitWsAux : List Char → List Char → List (List Char)
  | [], acc => if acc.isEmpty then [] else [acc.reverse]
  | c :: cs, acc =>
    if pyIsSpace c then
      if acc.isEmpty then splitWsAux cs []
      else acc.reverse :: splitWsAux cs []
    else splitWsAux cs (c :: acc)

/-- Model of Python `" ".join(s.lower().split())`: lowercase (ASCII, via
`Char.toLower`), collapse internal whitespace runs to single spaces, trim
leading/trailing whitespace. -/
def normName (s : List Char) : List Char :=
  List.intercalate [' '] (splitWsAux (s.map Char.toLower) [])

/-- The boundary test of `is_repealed`: the first character after the matched
portion must be a comma, a space, or an opening parenthesis. -/
def boundaryChar : List Char → Bool
  | c :: _ => c == ',' || c == ' ' || c == '('
  | [] => false

/-- Model of `is_repealed(law_name, repealed_names)`
(`law_crawler.py` lines 85-95, identical in `repealed_crawler_final.py`
lines 216-226): normalise both sides; the candidate matches when its
normalisation is a proper or improper initial segment of the normalisation
of a registry entry and the following character (if any) passes the
boundary test. -/
def is_repealed (law_name : List Char) (repealed_names : List (List Char)) : Bool :=
  let norm_name := normName law_name
  repealed_names.any fun repealed =>
    let norm_repealed := normName repealed
    norm_name.isPrefixOf norm_repealed &&
      (norm_repealed.length == norm_name.length ||
        boundaryChar (norm_repealed.drop norm_name.length))

/-- Characters replaced by `_` in `sanitize_filename`. -/
def badChar (c : Char) : Bool :=
  c == '<' || c == '>' || c == ':' || c == '"' || c == '/' ||
  c == '\\' || c == '|' || c == '?' || c == '*'

/-- Model of `sanitize_filename` (`law_crawler.py` lines 172-177):
replace the invalid characters by `_` and truncate to 200 characters. -/
def sanitize_filename (filename : List Char) : List Char :=
  let t := filename.map fun c => if badChar c then '_' else c
  if t.length > 200 then t.take 200 else t

/-- The artifact identifier of a catalog row:
`sanitize_filename(f"{law_name}.pdf")`. -/
def pdfFilenameOf (law_name : List Char) : List Char :=
  sanitize_filename (law_name ++ (".pdf").data)

/-! ## History file persistence (`load_processed_laws` / `save_processed_law`) -/

/-- Model of Python `str.strip()`: drop leading and trailing whitespace. -/
def pyStrip (s : List Char) : List Char :=
  ((s.dropWhile pyIsSpace).reverse.dropWhile pyIsSpace).reverse

/-- Helper for iterating a text file line by line: splits on `'\n'`;
`acc` holds the current line reversed. -/
def splitLinesAux : List Char → List Char → List (List Char)
  | [], acc => [acc.reverse]
  | c :: cs, acc =>
    if c = '\n' then acc.reverse :: splitLinesAux cs []
    else splitLinesAux cs (c :: acc)

/-- Split a file content into lines (separator `'\n'`). -/
def splitLines (s : List Char) : List (List Char) :=
  splitLinesAux s []

/-- Model of `load_processed_laws` (`law_crawler.py` lines 17-26): a missing
file (`none`) yields the empty set; otherwise every line is stripped and the
non-empty results are collected.  The result is returned as the list of kept
lines; the Python `set` semantics is expressed through membership. -/
def load_processed_laws (file : Option (List Char)) : List (List Char) :=
  match file with
  | none => []
  | some content => ((splitLines content).map pyStrip).filter (fun l => !l.isEmpty)

/-- Model of `save_processed_law` (`law_crawler.py` lines 28-34): append
`f"{name}\n"` to the history file, creating it when absent. -/
def save_processed_law (file : Option (List Char)) (name : List Char) : Option (List Char) :=
  some (file.getD [] ++ name ++ ['\n'])

/-- A whole sequence of `save_processed_law` appends. -/
def saveAll (file : Option (List Char)) (names : List (List Char)) : Option (List Char) :=
  names.foldl save_processed_law file

/-! ## Artifact fetching (`download_pdf`) -/

/-- Outcome of one HTTP attempt, as observed by `download_pdf`: a response
with a status code and a body (a byte sequence, modelled as `List Nat`), or a
transport timeout. -/
inductive Resp where
  | http (status : Nat) (body : List Nat)
  | timeout
deriving DecidableEq

/-- What a run of `download_pdf` did: its boolean return value, the number of
HTTP attempts performed, the payload written to the local file (if any), and
the sequence of inter-attempt sleep delays. -/
structure FetchTrace where
  ok : Bool
  attempts : Nat
  written : Option (List Nat)
  sleeps : List Nat
deriving DecidableEq

/-- The bytes `b"%PDF"`. -/
def pdfMagic : List Nat := [37, 80, 68, 70]

/-- Substring containment over byte lists (Python `in` for bytes). -/
def containsSub (pat : List Nat) : List Nat → Bool
  | [] => pat.isEmpty
  | c :: cs => pat.isPrefixOf (c :: cs) || containsSub pat cs

/-- The payload check of `law_crawler.py` line 142:
`len(content) > 100 and (content[:4] == b"%PDF" or b"%PDF" in content[:1024])`. -/
def isValidPdf (content : List Nat) : Bool :=
  decide (content.length > 100) &&
    (content.take 4 == pdfMagic || containsSub pdfMagic (content.take 1024))

/-- The attempt loop of `law_crawler.py` `download_pdf` (lines 136-166):
`attempt` is the 0-based index of the current attempt, the last argument the
number of attempts still available (initially 3).  On status 200 the body is
validated; an invalid body is a terminal failure and nothing is written.  On
404 the fetch fails immediately.  Any other status, and a timeout, sleep 2
(unless this was the last attempt) and retry. -/
def dlAux (resp : Nat → Resp) (attempt : Nat) : Nat → FetchTrace
  | 0 => { ok := false, attempts := attempt, written := none, sleeps := [] }
  | rem + 1 =>
    match resp attempt with
    | .http status content =>
      if status = 200 then
        if isValidPdf content then
          { ok := true, attempts := attempt + 1, written := some content, sleeps := [] }
        else
          { ok := false, attempts := attempt + 1, written := none, sleeps := [] }
      else if status = 404 then
        { ok := false, attempts := attempt + 1, written := none, sleeps := [] }
      else if rem > 0 then
        let t := dlAux resp (attempt + 1) rem
        { t with sleeps := 2 :: t.sleeps }
      else
        { ok := false, attempts := attempt + 1, written := none, sleeps := [] }
    | .timeout =>
      if rem > 0 then
        let t := dlAux resp (attempt + 1) rem
        { t with sleeps := 2 :: t.sleeps }
      else
        { ok := false, attempts := attempt + 1, written := none, sleeps := [] }

/-- Model of `download_pdf` in `law_crawler.py` (lines 118-169): if a local
copy already exists the fetch is skipped and reported as success; otherwise
up to 3 attempts are made. -/
def download_pdf (localExists : Bool) (resp : Nat → Resp) : FetchTrace :=
  if localExists then { ok := true, attempts := 0, written := none, sleeps := [] }
  else dlAux resp 0 3

/-- The attempt loop of `repealed_crawler_final.py` `download_pdf`
(lines 268-294): identical retry skeleton, but a status-200 body is written
unconditionally — there is no payload validation in this variant. -/
def dlAuxRepealed (resp : Nat → Resp) (attempt : Nat) : Nat → FetchTrace
  | 0 => { ok := false, attempts := attempt, written := none, sleeps := [] }
  | rem + 1 =>
    match resp attempt with
    | .http status content =>
      if status = 200 then
        { ok := true, attempts := attempt + 1, written := some content, sleeps := [] }
      else if status = 404 then
        { ok := false, attempts := attempt + 1, written := none, sleeps := [] }
      else if rem > 0 then
        let t := dlAuxRepealed resp (attempt + 1) rem
        { t with sleeps := 2 :: t.sleeps }
      else
        { ok := false, attempts := attempt + 1, written := none, sleeps := [] }
    | .timeout =>
      if rem > 0 then
        let t := dlAuxRepealed resp (attempt + 1) rem
        { t with sleeps := 2 :: t.sleeps }
      else
        { ok := false, attempts := attempt + 1, written := none, sleeps := [] }

/-- Model of `download_pdf` in `repealed_crawler_final.py` (lines 250-297). -/
def download_pdf_repealed (localExists : Bool) (resp : Nat → Resp) : FetchTrace :=
  if localExists then { ok := true, attempts := 0, written := none, sleeps := [] }
  else dlAuxRepealed resp 0 3

/-! ## The crawl loop of `law_crawler.py` `scrape_india_code` -/

/-- The record written by `update_progress` (`law_crawler.py` lines 55-70,
identical in `repealed_crawler_final.py` lines 184-199). -/
structure Progress where
  totalApprox : Nat
  processedCount : Nat
  skippedRepealed : Nat
  filesLeft : Int
  currentPage : Nat
  currentRow : Nat
deriving DecidableEq

/-- Model of `update_progress(total, processed, current_page, current_row,
skipped_repealed)`: the snapshot overwrites the progress file wholesale. -/
def update_progress (total processed current_page current_row skipped_repealed : Nat) :
    Progress :=
  { totalApprox := total
    processedCount := processed
    skippedRepealed := skipped_repealed
    filesLeft := max 0 ((total : Int) - processed - skipped_repealed)
    currentPage := current_page
    currentRow := current_row }

/-- What the environment does for a row the crawler decides to fetch:
either `download_pdf` eventually succeeds for some candidate link — with the
subsequent S3 upload and local `os.remove` outcomes — or every candidate
fails. -/
inductive FetchOutcome where
  | success (uploadOk : Bool) (removeOk : Bool)
  | failure
deriving DecidableEq

/-- One catalog row: the display name of the law and the behaviour of the environment if the crawler fetches it. -/
structure Row where
  name : List Char
  outcome : FetchOutcome
deriving DecidableEq

/-- Python `set.add`: insert only when absent. -/
def insertIfAbsent (x : List Char) (l : List (List Char)) : List (List Char) :=
  if x ∈ l then l else x :: l

/-- The mutable session state of `scrape_india_code` in `law_crawler.py`:
the in-memory history set `processed_files`, the session counters, the
consecutive-skip counter, the set of local artifact files on disk, and the
last progress snapshot written (`none` before the first write). -/
structure CrawlState where
  processed : List (List Char)
  totalDownloaded : Nat
  skippedRepealed : Nat
  skippedAlready : Nat
  consecutiveSkipped : Nat
  localFiles : List (List Char)
  progress : Option Progress
deriving DecidableEq

/-- Model of one iteration of the row loop of `law_crawler.py`
`scrape_india_code` (lines 588-743), for a row whose link was found.
Returns the new state and whether the loop `break`s (skip-ahead).
Branches, in source order: already-downloaded skip (with the
consecutive-skip threshold check at 20), repealed skip, and the
fetch→upload→delete-local→record pipeline (lines 677-699), where a
failed `os.remove` (`OSError`) skips the history update and the
counter increment. -/
def processRow (repealed_names : List (List Char)) (total page_num idx : Nat)
    (row : Row) (st : CrawlState) : CrawlState × Bool :=
  let fname := pdfFilenameOf row.name
  if fname ∈ st.processed then
    let st1 := { st with skippedAlready := st.skippedAlready + 1
                         consecutiveSkipped := st.consecutiveSkipped + 1 }
    let st2 := { st1 with progress := some (update_progress total
                  (st1.processed.length + st1.totalDownloaded) page_num idx
                  st1.skippedRepealed) }
    (st2, decide (st2.consecutiveSkipped ≥ 20))
  else if is_repealed row.name repealed_names then
    let st1 := { st with skippedRepealed := st.skippedRepealed + 1
                         consecutiveSkipped := st.consecutiveSkipped + 1 }
    let st2 := { st1 with progress := some (update_progress total
                  (st1.processed.length + st1.totalDownloaded) page_num idx
                  st1.skippedRepealed) }
    (st2, false)
  else
    let st1 := { st with consecutiveSkipped := 0 }
    match row.outcome with
    | .failure => (st1, false)
    | .success uploadOk removeOk =>
      let st2 := { st1 with localFiles := insertIfAbsent fname st1.localFiles }
      if uploadOk then
        if removeOk then
          let st3 := { st2 with localFiles := st2.localFiles.erase fname
                                processed := insertIfAbsent fname st2.processed
                                totalDownloaded := st2.totalDownloaded + 1 }
          let st4 := { st3 with progress := some (update_progress total
                        (st3.processed.length + st3.totalDownloaded) page_num idx
                        st3.skippedRepealed) }
          (st4, false)
        else (st2, false)
      else (st2, false)

/-- Scan the rows of a page from index `idx`, stopping early when a row
signals `break`.  Also returns the number of rows actually processed. -/
def processRowsFrom (repealed_names : List (List Char)) (total page_num : Nat) :
    Nat → List Row → CrawlState → CrawlState × Nat
  | _, [], st => (st, 0)
  | idx, r :: rs, st =>
    let p := processRow repealed_names total page_num idx r st
    if p.2 then (p.1, 1)
    else
      let q := processRowsFrom repealed_names total page_num (idx + 1) rs p.1
      (q.1, q.2 + 1)

/-- Scan one page (rows indexed from 0, matching `enumerate(rows)`). -/
def runPage (repealed_names : List (List Char)) (total page_num : Nat)
    (rows : List Row) (st : CrawlState) : CrawlState × Nat :=
  processRowsFrom repealed_names total page_num 0 rows st

/-- The page loop: pages are scanned in order with the state carried over;
nothing is reset between pages. -/
def runPages (repealed_names : List (List Char)) (total : Nat) :
    Nat → List (List Row) → CrawlState → CrawlState
  | _, [], st => st
  | page_num, p :: ps, st =>
    runPages repealed_names total (page_num + 1) ps
      (runPage repealed_names total page_num p st).1

/-- The session state set up before the page loop (`law_crawler.py`
lines 566-572): counters start at 0, `consecutive_skipped = 0`. -/
def initState (processed : List (List Char)) : CrawlState :=
  { processed := processed
    totalDownloaded := 0
    skippedRepealed := 0
    skippedAlready := 0
    consecutiveSkipped := 0
    localFiles := []
    progress := none }

/-- A whole crawler session: load history, then scan pages starting at 1. -/
def runSession (repealed_names : List (List Char)) (total : Nat)
    (pages : List (List Row)) (processedAtStart : List (List Char)) : CrawlState :=
  runPages repealed_names total 1 pages (initState processedAtStart)

/-! ## The row loop of `repealed_crawler_final.py` `scrape_india_code` -/

/-- The session state of the `repealed_crawler_final.py` variant: it also
tracks a previously-failed skip list, and has no consecutive-skip counter. -/
structure CrawlStateR where
  processed : List (List Char)
  failedLaws : List (List Char)
  totalDownloaded : Nat
  skippedRepealed : Nat
  skippedAlready : Nat
  skippedFailed : Nat
  localFiles : List (List Char)
  progress : Option Progress
deriving DecidableEq

/-- Model of one iteration of the row loop of `repealed_crawler_final.py`
`scrape_india_code` (lines 838-983): already-downloaded skip, repealed skip,
previously-failed skip, then the fetch pipeline.  There is no
consecutive-skip counter and no skip-ahead `break` in this variant. -/
def processRowR (repealed_names : List (List Char)) (total page_num idx : Nat)
    (row : Row) (st : CrawlStateR) : CrawlStateR :=
  let fname := pdfFilenameOf row.name
  if fname ∈ st.processed then
    { st with skippedAlready := st.skippedAlready + 1
              progress := some (update_progress total
                (st.processed.length + st.totalDownloaded) page_num idx
                st.skippedRepealed) }
  else if is_repealed row.name repealed_names then
    let st1 := { st with skippedRepealed := st.skippedRepealed + 1 }
    { st1 with progress := some (update_progress total
        (st1.processed.length + st1.totalDownloaded) page_num idx
        st1.skippedRepealed) }
  else if row.name ∈ st.failedLaws then
    { st with skippedFailed := st.skippedFailed + 1
              progress := some (update_progress total
                (st.processed.length + st.totalDownloaded) page_num idx
                st.skippedRepealed) }
  else
    match row.outcome with
    | .failure => st
    | .success uploadOk removeOk =>
      let st2 := { st with localFiles := insertIfAbsent fname st.localFiles }
      if uploadOk then
        if removeOk then
          let st3 := { st2 with localFiles := st2.localFiles.erase fname
                                processed := insertIfAbsent fname st2.processed
                                totalDownloaded := st2.totalDownloaded + 1 }
          { st3 with progress := some (update_progress total
              (st3.processed.length + st3.totalDownloaded) page_num idx
              st3.skippedRepealed) }
        else st2
      else st2

/-- Scan one page in the `repealed_crawler_final.py` variant: every row of
the page is processed — the loop has no early exit. -/
def runPageR (repealed_names : List (List Char)) (total page_num : Nat) :
    Nat → List Row → CrawlStateR → CrawlStateR
  | _, [], st => st
  | idx, r :: rs, st =>
    runPageR repealed_names total page_num (idx + 1) rs
      (processRowR repealed_names total page_num idx r st)

/-! ## The reconciliation pass of `repealed_crawler_final.py` (lines 429-444) -/

/-- Model of `fname.rsplit(".pdf", 1)[0]`: the part of `fname` before the
last occurrence of `".pdf"` (the whole string when there is none).
`lastMatchIdx` returns the greatest index at which `pat` occurs. -/
def lastMatchIdx (pat : List Char) : List Char → Option Nat
  | [] => if pat.isEmpty then some 0 else none
  | c :: cs =>
    match lastMatchIdx pat cs with
    | some j => some (j + 1)
    | none => if pat.isPrefixOf (c :: cs) then some 0 else none

/-- `fname.rsplit(".pdf", 1)[0].replace("_", " ")`: the underlying law name
recovered from a stored identifier. -/
def underlyingName (fname : List Char) : List Char :=
  let stem :=
    match lastMatchIdx ((".pdf").data) fname with
    | some j => fname.take j
    | none => fname
  stem.map fun c => if c = '_' then ' ' else c

/-- The remote storage and the history record, as seen by the
reconciliation pass. -/
structure RemoteState where
  s3Keys : List (List Char)
  history : List (List Char)
deriving DecidableEq

/-- Model of the startup reconciliation pass of `repealed_crawler_final.py`
`scrape_india_code` (lines 429-444): every history identifier whose
underlying name matches the repealed registry has its S3 object deleted.
The history set and the history file are not modified by this pass. -/
def reconcile (repealed_names : List (List Char)) (st : RemoteState) : RemoteState :=
  let repealedDownloaded :=
    st.history.filter fun fname => is_repealed (underlyingName fname) repealed_names
  { s3Keys := st.s3Keys.filter fun k => decide (k ∉ repealedDownloaded)
    history := st.history }

/-! ## Claim C1 -/

/-- C1 counterexample: the claim asserts `isExcluded("Factories Act")` is
false when the registry contains `"Factories Act II"`; in the code the
character after the matched portion is a space, which the boundary test
accepts, so `is_repealed` returns true there. -/
theorem C1_factories_act_ii_is_excluded :
    is_repealed ("Factories Act").data [("Factories Act II").data] = true := by decide

/-- C1 (amended): `isExcluded("Factories Act")` is true given a registry
entry `"Factories Act, 1948"` and also true given `"Factories Act II"`
(the boundary character is a space); in general a candidate matches exactly
when its normalisation is an initial segment of the normalisation of a
registry entry and the character immediately after the matched portion is
end-of-string, a comma, a space, or an opening parenthesis. -/
theorem C1_exclusion_boundary :
    is_repealed ("Factories Act").data [("Factories Act, 1948").data] = true ∧
    is_repealed ("Factories Act").data [("Factories Act II").data] = true ∧
    ∀ (law_name : List Char) (repealed_names : List (List Char)),
      is_repealed law_name repealed_names = true ↔
        ∃ r ∈ repealed_names,
          normName law_name <+: normName r ∧
          ((normName r).length = (normName law_name).length ∨
            boundaryChar ((normName r).drop (normName law_name).length) = true) := by
  refine ⟨by decide, by decide, fun law_name repealed_names => ?_⟩
  simp [is_repealed, List.any_eq_true, Bool.and_eq_true, Bool.or_eq_true, beq_iff_eq]

/-! ## Claim C8 -/

/-- C8 counterexample: identifier derivation is not collision-free — the
distinct display names `"a?"` and `"a*"` both map to the identifier
`"a_.pdf"` because every character of the replaced class becomes `_`. -/
theorem C8_identifier_collision :
    pdfFilenameOf ("a?").data = pdfFilenameOf ("a*").data ∧
    ("a?").data ≠ ("a*").data := by decide

/-- C8 (amended): identifier derivation is a pure function — identical
display names always yield the identical identifier — but it is not
collision-free: distinct display names can yield the same identifier. -/
theorem C8_identifier_deterministic_not_injective :
    (∀ a b : List Char, a = b → pdfFilenameOf a = pdfFilenameOf b) ∧
    (pdfFilenameOf ("a?").data = pdfFilenameOf ("a*").data ∧
      ("a?").data ≠ ("a*").data) :=
  ⟨fun _ _ h => congrArg pdfFilenameOf h, by decide⟩

/-- C8 witness: the determinism component applied at a concrete name. -/
theorem C8_identifier_deterministic_witness :
    pdfFilenameOf ("x").data = pdfFilenameOf ("x").data :=
  C8_identifier_deterministic_not_injective.1 _ _ rfl

/-! ## Claim C2 -/

/-- C2 counterexample: after the reconciliation pass, the identifier
`"Old Act.pdf"` — whose underlying name `"Old Act"` matches the registry
entry `"Old Act, 1950"` — has its S3 object deleted but is still present in
the history record, contradicting the claim that it is removed from
HistoryRecord. -/
theorem C2_history_not_cleaned :
    (reconcile [("Old Act, 1950").data]
        { s3Keys := [("Old Act.pdf").data], history := [("Old Act.pdf").data] }).s3Keys
      = [] ∧
    ("Old Act.pdf").data ∈ (reconcile [("Old Act, 1950").data]
        { s3Keys := [("Old Act.pdf").data], history := [("Old Act.pdf").data] }).history := by
  decide

/-- C2 (amended): the reconciliation pass deletes from remote storage every
object whose identifier is in the history record and whose underlying name
matches the exclusion registry, but it leaves the history record itself
completely unchanged — the identifier is not removed from HistoryRecord. -/
theorem C2_reconciliation_deletes_s3_only :
    ∀ (repealed_names : List (List Char)) (st : RemoteState),
      (reconcile repealed_names st).history = st.history ∧
      ∀ k, k ∈ (reconcile repealed_names st).s3Keys ↔
        k ∈ st.s3Keys ∧
          ¬ (k ∈ st.history ∧ is_repealed (underlyingName k) repealed_names = true) := by
  intro repealed_names st
  refine ⟨rfl, fun k => ?_⟩
  simp [reconcile, List.mem_filter, decide_eq_true_eq]
  tauto

/-! ## Claim C9 -/

/-- The file content produced by appending each name followed by `'\n'`. -/
def historyText (names : List (List Char)) : List Char :=
  (names.map fun n => n ++ ['\n']).flatten

theorem saveAll_some (names : List (List Char)) :
    ∀ c : List Char, saveAll (some c) names = some (c ++ historyText names) := by
  induction names with
  | nil => intro c; simp [saveAll, historyText]
  | cons n ns ih =>
    intro c
    simp only [saveAll, List.foldl_cons, save_processed_law, Option.getD] at *
    rw [ih]
    simp [historyText, List.append_assoc]

theorem saveAll_none_cons (n : List Char) (ns : List (List Char)) :
    saveAll none (n :: ns) = some (historyText (n :: ns)) := by
  simp only [saveAll, List.foldl_cons, save_processed_law, Option.getD]
  have := saveAll_some ns (List.nil ++ n ++ ['\n'])
  simp only [saveAll] at this
  rw [this]
  simp [historyText]

theorem splitLinesAux_append (rest : List Char) :
    ∀ (n acc : List Char), '\n' ∉ n →
      splitLinesAux (n ++ '\n' :: rest) acc =
        (acc.reverse ++ n) :: splitLinesAux rest [] := by
  intro n
  induction n with
  | nil => intro acc _; simp [splitLinesAux]
  | cons c cs ih =>
    intro acc hn
    have hc : c ≠ '\n' := fun h => hn (by simp [h])
    have hcs : '\n' ∉ cs := fun h => hn (List.mem_cons_of_mem _ h)
    simp only [List.cons_append, splitLinesAux, if_neg hc]
    rw [List.append_eq, ih (c :: acc) hcs]
    simp

theorem splitLines_historyText (names : List (List Char))
    (h : ∀ n ∈ names, '\n' ∉ n) :
    splitLines (historyText names) = names ++ [[]] := by
  induction names with
  | nil => simp [historyText, splitLines, splitLinesAux]
  | cons n ns ih =>
    have hn : '\n' ∉ n := h n (List.mem_cons_self n ns)
    have hns : ∀ m ∈ ns, '\n' ∉ m := fun m hm => h m (List.mem_cons_of_mem _ hm)
    simp only [historyText, List.map_cons, List.flatten_cons, splitLines]
    have e : (n ++ ['\n']) ++ ((ns.map fun m => m ++ ['\n']).flatten) =
        n ++ '\n' :: historyText ns := by simp [historyText]
    rw [e, splitLinesAux_append _ n [] hn]
    simpa [splitLines, historyText] using congrArg (List.cons n) (ih hns)

theorem load_saveAll (names : List (List Char))
    (h : ∀ n ∈ names, n ≠ [] ∧ '\n' ∉ n ∧ pyStrip n = n) :
    load_processed_laws (saveAll none names) = names := by
  cases names with
  | nil => simp [saveAll, load_processed_laws]
  | cons n ns =>
    rw [saveAll_none_cons]
    have hnl : ∀ m ∈ n :: ns, '\n' ∉ m := fun m hm => (h m hm).2.1
    simp only [load_processed_laws, splitLines_historyText (n :: ns) hnl]
    rw [List.map_append, List.filter_append]
    have h1 : (n :: ns).map pyStrip = n :: ns :=
      List.map_congr_left (fun m hm => (h m hm).2.2) |>.trans (List.map_id _)
    rw [h1]
    have h2 : List.filter (fun l => !l.isEmpty) (n :: ns) = n :: ns := by
      rw [List.filter_eq_self]
      intro m hm
      have := (h m hm).1
      simp [List.isEmpty_iff, this]
    rw [h2]
    simp [pyStrip, splitLinesAux]

/-- C9 counterexample: appending the whitespace-only identifier `" "` and
reloading yields the empty set, not the set containing `" "` — the
line-strip on load drops it, so the round trip is not exact for every
sequence of identifiers. -/
theorem C9_whitespace_identifier_lost :
    load_processed_laws (saveAll none [[' ']]) = [] ∧
    [' '] ∉ load_processed_laws (saveAll none [[' ']]) := by decide

/-- C9 (amended): `load_processed_laws` returns the empty set when the
history file does not exist, and for every sequence of identifiers that are
non-empty, newline-free and invariant under whitespace stripping, loading
after appending them all reconstructs exactly that set of identifiers
(identifiers violating those conditions can be altered or lost by the
line-based reload). -/
theorem C9_history_roundtrip :
    load_processed_laws none = [] ∧
    ∀ names : List (List Char),
      (∀ n ∈ names, n ≠ [] ∧ '\n' ∉ n ∧ pyStrip n = n) →
      ∀ x, x ∈ load_processed_laws (saveAll none names) ↔ x ∈ names := by
  refine ⟨rfl, fun names h x => ?_⟩
  rw [load_saveAll names h]

/-- C9 witness: the round trip applied to the concrete identifier list
`["a.pdf"]`. -/
theorem C9_history_roundtrip_witness :
    ("a.pdf").data ∈ load_processed_laws (saveAll none [("a.pdf").data]) ↔
      ("a.pdf").data ∈ [("a.pdf").data] :=
  C9_history_roundtrip.2 [("a.pdf").data] (by decide) (("a.pdf").data)

/-! ## Claim C6 -/

/-- C6: for a fetch with no local copy present, a 404 response fails after
exactly one attempt with no retry and no delay; three consecutive timeouts,
or three consecutive responses with a status other than 200 and 404, yield
exactly 3 attempts with a fixed delay of 2 time units between consecutive
attempts, and then failure.  This holds for the `download_pdf` of
`law_crawler.py` and the one of `repealed_crawler_final.py` alike. -/
theorem C6_retry_policy :
    (∀ (resp : Nat → Resp) (body : List Nat), resp 0 = Resp.http 404 body →
      download_pdf false resp = ⟨false, 1, none, []⟩ ∧
      download_pdf_repealed false resp = ⟨false, 1, none, []⟩) ∧
    (∀ resp : Nat → Resp, (∀ n, n < 3 → resp n = Resp.timeout) →
      download_pdf false resp = ⟨false, 3, none, [2, 2]⟩ ∧
      download_pdf_repealed false resp = ⟨false, 3, none, [2, 2]⟩) ∧
    (∀ (resp : Nat → Resp) (code : Nat) (body : List Nat),
      code ≠ 200 → code ≠ 404 → (∀ n, n < 3 → resp n = Resp.http code body) →
      download_pdf false resp = ⟨false, 3, none, [2, 2]⟩ ∧
      download_pdf_repealed false resp = ⟨false, 3, none, [2, 2]⟩) := by
  refine ⟨fun resp body h0 => ?_, fun resp h => ?_, fun resp code body h200 h404 h => ?_⟩
  · constructor <;>
      simp [download_pdf, download_pdf_repealed, dlAux, dlAuxRepealed, h0]
  · constructor <;>
      simp [download_pdf, download_pdf_repealed, dlAux, dlAuxRepealed,
        h 0 (by omega), h 1 (by omega), h 2 (by omega)]
  · constructor <;>
      simp [download_pdf, download_pdf_repealed, dlAux, dlAuxRepealed,
        h 0 (by omega), h 1 (by omega), h 2 (by omega), h200, h404]

/-- C6 witness: the three scenarios at concrete response oracles. -/
theorem C6_retry_policy_witness :
    download_pdf false (fun _ => Resp.http 404 []) = ⟨false, 1, none, []⟩ ∧
    download_pdf false (fun _ => Resp.timeout) = ⟨false, 3, none, [2, 2]⟩ ∧
    download_pdf false (fun _ => Resp.http 500 []) = ⟨false, 3, none, [2, 2]⟩ :=
  ⟨(C6_retry_policy.1 _ [] rfl).1,
   (C6_retry_policy.2.1 _ (fun _ _ => rfl)).1,
   (C6_retry_policy.2.2 _ 500 [] (by omega) (by omega) (fun _ _ => rfl)).1⟩

/-! ## Claim C7 -/

theorem dlAux_written_valid (resp : Nat → Resp) :
    ∀ (rem attempt : Nat) (c : List Nat),
      (dlAux resp attempt rem).written = some c → isValidPdf c = true := by
  intro rem
  induction rem with
  | zero => intro attempt c h; simp [dlAux] at h
  | succ rem ih =>
    intro attempt c h
    rw [dlAux] at h
    split at h
    · split at h
      · split at h
        next hv =>
          simp only [Option.some.injEq] at h
          exact h ▸ hv
        next => simp at h
      · split at h
        · simp at h
        · split at h
          · exact ih (attempt + 1) c h
          · simp at h
    · split at h
      · exact ih (attempt + 1) c h
      · simp at h

/-- C7 counterexample: the `download_pdf` of `repealed_crawler_final.py`
stores an HTTP-200 payload without any validation — the 3-byte non-PDF body
`[1, 2, 3]` is written to the local file and the fetch reports success. -/
theorem C7_repealed_variant_stores_invalid_payload :
    (download_pdf_repealed false (fun _ => Resp.http 200 [1, 2, 3])).written
      = some [1, 2, 3] ∧
    isValidPdf [1, 2, 3] = false ∧
    (download_pdf_repealed false (fun _ => Resp.http 200 [1, 2, 3])).ok = true := by
  decide

/-- C7 (amended): in `law_crawler.py`, an HTTP-success payload is validated
(minimum byte length and PDF magic bytes) before being stored: a payload
failing validation is a terminal failure after that single attempt — not
retried and never written — and every payload this `download_pdf` writes
satisfies the validation.  The `download_pdf` of
`repealed_crawler_final.py` performs no such validation and stores any
HTTP-200 payload. -/
theorem C7_payload_validation :
    (∀ (resp : Nat → Resp) (content : List Nat),
      resp 0 = Resp.http 200 content → isValidPdf content = false →
      download_pdf false resp = ⟨false, 1, none, []⟩) ∧
    (∀ (resp : Nat → Resp) (c : List Nat),
      (download_pdf false resp).written = some c → isValidPdf c = true) ∧
    (∀ (resp : Nat → Resp) (content : List Nat),
      resp 0 = Resp.http 200 content →
      download_pdf_repealed false resp = ⟨true, 1, some content, []⟩) := by
  refine ⟨fun resp content h0 hv => ?_, fun resp c h => ?_, fun resp content h0 => ?_⟩
  · simp [download_pdf, dlAux, h0, hv]
  · rw [download_pdf] at h
    simp only [Bool.false_eq_true, if_false] at h
    exact dlAux_written_valid resp 3 0 c h
  · simp [download_pdf_repealed, dlAuxRepealed, h0]

/-- C7 witness: the validation-failure scenario at a concrete oracle (an
empty HTTP-200 body, which fails the minimum-length check). -/
theorem C7_payload_validation_witness :
    download_pdf false (fun _ => Resp.http 200 []) = ⟨false, 1, none, []⟩ :=
  C7_payload_validation.1 _ [] rfl (by decide)

/-! ## Claim C3 -/

/-- C3 counterexample: with the upload succeeding but the local delete
failing (`os.remove` raises `OSError`), the history record is not updated,
the session counter is not incremented, and the local artifact remains —
so the three success effects are not unconditional on upload success. -/
theorem C3_history_skipped_when_remove_fails :
    (processRow [] 10 1 0
        { name := ("New Act").data, outcome := .success true false }
        (initState [])).1.processed = [] ∧
    ("New Act.pdf").data ∈ (processRow [] 10 1 0
        { name := ("New Act").data, outcome := .success true false }
        (initState [])).1.localFiles ∧
    (processRow [] 10 1 0
        { name := ("New Act").data, outcome := .success true false }
        (initState [])).1.totalDownloaded = 0 := by
  decide

/-- C3 (amended): for a fetched row, an upload failure retains the local
artifact and leaves the history record, the download counter and the last
progress snapshot unchanged.  An upload success is followed by an attempt
to delete the local copy: when that delete succeeds, the local copy is
gone, the identifier is added to the history record and the counter is
incremented; when the delete fails (`OSError`), the local copy remains and
the history record and counter stay unchanged — the three success effects
are conditional on the local delete succeeding, not unconditional. -/
theorem C3_upload_outcome :
    ∀ (repealed_names : List (List Char)) (total page_num idx : Nat)
      (name : List Char) (st : CrawlState),
      pdfFilenameOf name ∉ st.processed →
      is_repealed name repealed_names = false →
      pdfFilenameOf name ∉ st.localFiles →
      (∀ removeOk, processRow repealed_names total page_num idx
          { name := name, outcome := .success false removeOk } st =
        ({ st with
            consecutiveSkipped := 0
            localFiles := pdfFilenameOf name :: st.localFiles }, false)) ∧
      (processRow repealed_names total page_num idx
          { name := name, outcome := .success true true } st =
        ({ st with
            consecutiveSkipped := 0
            processed := pdfFilenameOf name :: st.processed
            totalDownloaded := st.totalDownloaded + 1
            progress := some (update_progress total
              (st.processed.length + 1 + (st.totalDownloaded + 1))
              page_num idx st.skippedRepealed) }, false)) ∧
      (processRow repealed_names total page_num idx
          { name := name, outcome := .success true false } st =
        ({ st with
            consecutiveSkipped := 0
            localFiles := pdfFilenameOf name :: st.localFiles }, false)) := by
  intro repealed_names total page_num idx name st hmem hrep hlocal
  refine ⟨fun removeOk => ?_, ?_, ?_⟩ <;>
    simp [processRow, hmem, hrep, insertIfAbsent, hlocal, List.erase_cons_head]

/-- C3 witness: the three branches at a concrete fresh row and empty
initial state. -/
theorem C3_upload_outcome_witness :
    processRow [] 10 1 0
        { name := ("New Act").data, outcome := .success true true }
        (initState []) =
      ({ (initState []) with
           consecutiveSkipped := 0
           processed := pdfFilenameOf ("New Act").data :: (initState []).processed
           totalDownloaded := (initState []).totalDownloaded + 1
           progress := some (update_progress 10
             ((initState []).processed.length + 1 + ((initState []).totalDownloaded + 1))
             1 0 (initState []).skippedRepealed) }, false) :=
  (C3_upload_outcome [] 10 1 0 (("New Act").data) (initState [])
    (by decide) (by decide) (by decide)).2.1

/-! ## Claim C4 -/

/-- C4 counterexample: in the three-row scenario (one already-ingested row,
one excluded row, one novel row that is fetched, uploaded and recorded),
the `processed_count` of the snapshot written after the page is
`len(processed_files) + total_downloaded`; the new identifier enters both
summands, so the count rises from 1 to 3 — by exactly 2, not by exactly 1
as the claim states.  `skipped_repealed` rises by exactly 1 as claimed. -/
theorem C4_processed_count_rises_by_two :
    (initState [("Old Act.pdf").data]).processed.length +
        (initState [("Old Act.pdf").data]).totalDownloaded = 1 ∧
    (runPage [("Repealed Act, 1920, as amended").data] 100 1
        [{ name := ("Old Act").data, outcome := .failure },
         { name := ("Repealed Act, 1920").data, outcome := .failure },
         { name := ("New Act 2024").data, outcome := .success true true }]
        (initState [("Old Act.pdf").data])).1.progress =
      some (update_progress 100 3 1 2 1) ∧
    (update_progress 100 3 1 2 1).processedCount ≠ 1 + 1 := by
  decide

/-- C4 (amended): in the three-row scenario, row 1 is skipped as
already-ingested, row 2 is skipped as excluded, row 3 is fetched, uploaded
and appended to the history record, and the snapshot written after the page
shows `skipped_repealed` increased by exactly 1 — but `processed_count`
increased by exactly 2 relative to before the page, because the new
identifier is counted both in the history-set size and in the session
download counter. -/
theorem C4_three_row_page :
    ∀ (registry : List (List Char)) (total page_num : Nat)
      (n1 n2 n3 : List Char) (st : CrawlState),
      pdfFilenameOf n1 ∈ st.processed →
      pdfFilenameOf n2 ∉ st.processed →
      is_repealed n2 registry = true →
      pdfFilenameOf n3 ∉ st.processed →
      is_repealed n3 registry = false →
      pdfFilenameOf n3 ∉ st.localFiles →
      st.consecutiveSkipped + 1 < 20 →
      runPage registry total page_num
          [{ name := n1, outcome := .failure },
           { name := n2, outcome := .failure },
           { name := n3, outcome := .success true true }] st =
        ({ st with
            skippedAlready := st.skippedAlready + 1
            skippedRepealed := st.skippedRepealed + 1
            consecutiveSkipped := 0
            processed := pdfFilenameOf n3 :: st.processed
            totalDownloaded := st.totalDownloaded + 1
            progress := some (update_progress total
              (st.processed.length + 1 + (st.totalDownloaded + 1))
              page_num 2 (st.skippedRepealed + 1)) }, 3) := by
  intro registry total page_num n1 n2 n3 st h1 h2a h2b h3a h3b h3l hlt
  have hbrk : decide (st.consecutiveSkipped + 1 ≥ 20) = false :=
    decide_eq_false (by omega)
  simp [runPage, processRowsFrom, processRow, h1, h2a, h2b, h3a, h3b, h3l,
    hbrk, insertIfAbsent, List.erase_cons_head]
  omega

/-- C4 witness: the amended page outcome at the concrete three-row
scenario of the specification. -/
theorem C4_three_row_page_witness :
    runPage [("Repealed Act, 1920, as amended").data] 100 1
        [{ name := ("Old Act").data, outcome := .failure },
         { name := ("Repealed Act, 1920").data, outcome := .failure },
         { name := ("New Act 2024").data, outcome := .success true true }]
        (initState [("Old Act.pdf").data]) =
      ({ (initState [("Old Act.pdf").data]) with
          skippedAlready := (initState [("Old Act.pdf").data]).skippedAlready + 1
          skippedRepealed := (initState [("Old Act.pdf").data]).skippedRepealed + 1
          consecutiveSkipped := 0
          processed := pdfFilenameOf ("New Act 2024").data ::
            (initState [("Old Act.pdf").data]).processed
          totalDownloaded := (initState [("Old Act.pdf").data]).totalDownloaded + 1
          progress := some (update_progress 100
            ((initState [("Old Act.pdf").data]).processed.length + 1 +
              ((initState [("Old Act.pdf").data]).totalDownloaded + 1))
            1 2 ((initState [("Old Act.pdf").data]).skippedRepealed + 1)) }, 3) :=
  C4_three_row_page [("Repealed Act, 1920, as amended").data] 100 1
    (("Old Act").data) (("Repealed Act, 1920").data) (("New Act 2024").data)
    (initState [("Old Act.pdf").data])
    (by decide) (by decide) (by decide) (by decide) (by decide) (by decide)
    (by decide)

/-! ## Claim C5 -/

theorem processRow_already (repealed_names : List (List Char))
    (total page_num idx : Nat) (row : Row) (st : CrawlState)
    (h : pdfFilenameOf row.name ∈ st.processed) :
    processRow repealed_names total page_num idx row st =
      ({ st with
          skippedAlready := st.skippedAlready + 1
          consecutiveSkipped := st.consecutiveSkipped + 1
          progress := some (update_progress total
            (st.processed.length + st.totalDownloaded) page_num idx
            st.skippedRepealed) },
        decide (st.consecutiveSkipped + 1 ≥ 20)) := by
  simp [processRow, h]

theorem skipRun (repealed_names : List (List Char)) (total page_num : Nat) :
    ∀ (rows : List Row) (idx : Nat) (st : CrawlState),
      (∀ r ∈ rows, pdfFilenameOf r.name ∈ st.processed) →
      st.consecutiveSkipped < 20 →
      20 ≤ st.consecutiveSkipped + rows.length →
      (processRowsFrom repealed_names total page_num idx rows st).2 =
        20 - st.consecutiveSkipped ∧
      (processRowsFrom repealed_names total page_num idx rows st).1.skippedAlready =
        st.skippedAlready + (20 - st.consecutiveSkipped) ∧
      (processRowsFrom repealed_names total page_num idx rows st).1.consecutiveSkipped
        = 20 := by
  intro rows
  induction rows with
  | nil =>
    intro idx st _ hlt hge
    simp at hge
    omega
  | cons r rs ih =>
    intro idx st hm hlt hge
    have hr := hm r (List.mem_cons_self r rs)
    by_cases hc : 20 ≤ st.consecutiveSkipped + 1
    · have h19 : st.consecutiveSkipped = 19 := by omega
      simp only [processRowsFrom,
        processRow_already repealed_names total page_num idx r st hr]
      rw [decide_eq_true (show st.consecutiveSkipped + 1 ≥ 20 from hc)]
      simp [h19]
    · have hdec : decide (st.consecutiveSkipped + 1 ≥ 20) = false :=
        decide_eq_false (by omega)
      simp only [processRowsFrom,
        processRow_already repealed_names total page_num idx r st hr, hdec,
        Bool.false_eq_true, if_false]
      have ihs := ih (idx + 1)
        { st with
            skippedAlready := st.skippedAlready + 1
            consecutiveSkipped := st.consecutiveSkipped + 1
            progress := some (update_progress total
              (st.processed.length + st.totalDownloaded) page_num idx
              st.skippedRepealed) }
        (fun x hx => hm x (List.mem_cons_of_mem r hx))
        (by simpa using by omega)
        (by simp at hge ⊢; omega)
      refine ⟨?_, ?_, ?_⟩
      · rw [ihs.1]; simp; omega
      · rw [ihs.2.1]; simp; omega
      · rw [ihs.2.2]

theorem processRowR_already (repealed_names : List (List Char))
    (total page_num idx : Nat) (row : Row) (st : CrawlStateR)
    (h : pdfFilenameOf row.name ∈ st.processed) :
    processRowR repealed_names total page_num idx row st =
      { st with
          skippedAlready := st.skippedAlready + 1
          progress := some (update_progress total
            (st.processed.length + st.totalDownloaded) page_num idx
            st.skippedRepealed) } := by
  simp [processRowR, h]

theorem runPageR_allSkip (repealed_names : List (List Char)) (total page_num : Nat) :
    ∀ (rows : List Row) (idx : Nat) (st : CrawlStateR),
      (∀ r ∈ rows, pdfFilenameOf r.name ∈ st.processed) →
      (runPageR repealed_names total page_num idx rows st).skippedAlready =
        st.skippedAlready + rows.length := by
  intro rows
  induction rows with
  | nil => intro idx st _; simp [runPageR]
  | cons r rs ih =>
    intro idx st hm
    rw [runPageR,
      processRowR_already repealed_names total page_num idx r st
        (hm r (List.mem_cons_self r rs))]
    have hrec := ih (idx + 1)
      { st with
          skippedAlready := st.skippedAlready + 1
          progress := some (update_progress total
            (st.processed.length + st.totalDownloaded) page_num idx
            st.skippedRepealed) }
      (fun x hx => hm x (List.mem_cons_of_mem r hx))
    rw [hrec]
    simp
    omega

/-- The session state set up before the page loop of
`repealed_crawler_final.py` (lines 806-812). -/
def initStateR (processed failedLaws : List (List Char)) : CrawlStateR :=
  { processed := processed
    failedLaws := failedLaws
    totalDownloaded := 0
    skippedRepealed := 0
    skippedAlready := 0
    skippedFailed := 0
    localFiles := []
    progress := none }

/-- C5 counterexample: in the row scan of `repealed_crawler_final.py`
`scrape_india_code` — one of the two loops the claim refers to — there is no
consecutive-skip counter: a page of 25 consecutive already-ingested rows is
scanned to the end, all 25 rows are processed as skips, and rows 21-25 are
not abandoned. -/
theorem C5_repealed_variant_scans_all_rows :
    (runPageR [] 100 1 0
        (List.replicate 25 { name := ("Old Act").data, outcome := FetchOutcome.failure })
        (initStateR [("Old Act.pdf").data] [])).skippedAlready = 25 := by
  decide

/-- C5 (amended): in `law_crawler.py` the claim holds — on a page whose
first 25 rows are all already-ingested, with the consecutive-skip counter
at 0, the scan processes exactly 20 rows and abandons the rest of the page.
In `repealed_crawler_final.py` there is no consecutive-skip counter and an
all-already-ingested page of any length is scanned in full, every row
counted as a skip. -/
theorem C5_skip_ahead :
    (∀ (registry : List (List Char)) (total page_num : Nat)
      (rows : List Row) (st : CrawlState),
      rows.length = 25 →
      (∀ r ∈ rows, pdfFilenameOf r.name ∈ st.processed) →
      st.consecutiveSkipped = 0 →
      (runPage registry total page_num rows st).2 = 20 ∧
      (runPage registry total page_num rows st).1.skippedAlready =
        st.skippedAlready + 20) ∧
    (∀ (registry : List (List Char)) (total page_num idx : Nat)
      (rows : List Row) (stR : CrawlStateR),
      (∀ r ∈ rows, pdfFilenameOf r.name ∈ stR.processed) →
      (runPageR registry total page_num idx rows stR).skippedAlready =
        stR.skippedAlready + rows.length) := by
  constructor
  · intro registry total page_num rows st hlen hm hc0
    have h := skipRun registry total page_num rows 0 st hm (by omega) (by omega)
    rw [runPage]
    exact ⟨by rw [h.1, hc0], by rw [h.2.1, hc0]⟩
  · intro registry total page_num idx rows stR hm
    exact runPageR_allSkip registry total page_num rows idx stR hm

/-- C5 witness: the `law_crawler.py` part at a concrete page of 25
already-ingested rows. -/
theorem C5_skip_ahead_witness :
    (runPage [] 100 1
        (List.replicate 25 { name := ("Old Act").data, outcome := FetchOutcome.failure })
        (initState [("Old Act.pdf").data])).2 = 20 :=
  (C5_skip_ahead.1 [] 100 1
    (List.replicate 25 { name := ("Old Act").data, outcome := FetchOutcome.failure })
    (initState [("Old Act.pdf").data])
    (by decide) (by decide) rfl).1

/-! ## Claim C10 -/

/-- C10: the consecutive-skip counter is initialised to 0 once per session,
before the page loop; an already-ingested row always increments it (also
when the increment triggers the skip-ahead `break`, which fires exactly when
the counter reaches 20); an excluded row increments it without any
skip-ahead check; only a fetchable (new) row resets it to 0, whatever the
fetch/upload outcome; and since the page loop carries the state across
pages unchanged, a counter already at the threshold makes a single
already-ingested row at the top of the next page abandon that page after
exactly one row. -/
theorem C10_consecutive_skip_invariant :
    (∀ processed : List (List Char), (initState processed).consecutiveSkipped = 0) ∧
    (∀ (registry : List (List Char)) (total page_num idx : Nat)
      (row : Row) (st : CrawlState),
      pdfFilenameOf row.name ∈ st.processed →
      (processRow registry total page_num idx row st).1.consecutiveSkipped =
        st.consecutiveSkipped + 1 ∧
      ((processRow registry total page_num idx row st).2 = true ↔
        20 ≤ st.consecutiveSkipped + 1)) ∧
    (∀ (registry : List (List Char)) (total page_num idx : Nat)
      (row : Row) (st : CrawlState),
      pdfFilenameOf row.name ∉ st.processed →
      is_repealed row.name registry = true →
      (processRow registry total page_num idx row st).1.consecutiveSkipped =
        st.consecutiveSkipped + 1 ∧
      (processRow registry total page_num idx row st).2 = false) ∧
    (∀ (registry : List (List Char)) (total page_num idx : Nat)
      (row : Row) (st : CrawlState),
      pdfFilenameOf row.name ∉ st.processed →
      is_repealed row.name registry = false →
      (processRow registry total page_num idx row st).1.consecutiveSkipped = 0) ∧
    (∀ (registry : List (List Char)) (total page_num : Nat)
      (r : Row) (rest : List Row) (st : CrawlState),
      20 ≤ st.consecutiveSkipped →
      pdfFilenameOf r.name ∈ st.processed →
      (runPage registry total page_num (r :: rest) st).2 = 1) := by
  refine ⟨fun processed => rfl, ?_, ?_, ?_, ?_⟩
  · intro registry total page_num idx row st h
    rw [processRow_already registry total page_num idx row st h]
    simp
  · intro registry total page_num idx row st hmem hrep
    simp [processRow, hmem, hrep]
  · intro registry total page_num idx row st hmem hrep
    cases hro : row.outcome with
    | failure => simp [processRow, hmem, hrep, hro]
    | success uploadOk removeOk =>
      cases uploadOk <;> cases removeOk <;>
        simp [processRow, hmem, hrep, hro, insertIfAbsent]
  · intro registry total page_num r rest st hge hmem
    rw [runPage, processRowsFrom,
      processRow_already registry total page_num 0 r st hmem]
    rw [decide_eq_true (show st.consecutiveSkipped + 1 ≥ 20 by omega)]
    simp

/-- C10 witness: the increment and the cross-page carry-over at concrete
inputs — with the counter already at 20 from earlier pages, a single
already-ingested row at the top of a page ends that page after one row. -/
theorem C10_consecutive_skip_invariant_witness :
    (processRow [] 100 1 0
        { name := ("Old Act").data, outcome := FetchOutcome.failure }
        (initState [("Old Act.pdf").data])).1.consecutiveSkipped =
      (initState [("Old Act.pdf").data]).consecutiveSkipped + 1 ∧
    (runPage [] 100 2
        [{ name := ("Old Act").data, outcome := FetchOutcome.failure }]
        { (initState [("Old Act.pdf").data]) with consecutiveSkipped := 20 }).2 = 1 :=
  ⟨(C10_consecutive_skip_invariant.2.1 [] 100 1 0
      { name := ("Old Act").data, outcome := FetchOutcome.failure }
      (initState [("Old Act.pdf").data]) (by decide)).1,
   C10_consecutive_skip_invariant.2.2.2.2 [] 100 2
      { name := ("Old Act").data, outcome := FetchOutcome.failure } []
      { (initState [("Old Act.pdf").data]) with consecutiveSkipped := 20 }
      (by decide) (by decide)⟩

end LawCrawl
